import Mathlib

/-!
Verification of the command-to-motion routing and safety-clamping layer of the
VR_PEPPER_ROBOT teleoperation server (src/Python/pepper_control and
src/Python/utils), as a shallow embedding in Lean 4.

Floating-point angles and speeds are embedded as rationals: every operation the
layer performs on them is a comparison or a min/max selection, which floats and
rationals decide identically on the literals involved.  Calls to the vendor
Actuator Service (NAOqi `ALMotion` / `ALRobotPosture`) are recorded as values of
an `ACall` trace type; fallible Python code is embedded as `Except`, and the
possibility that an Actuator Service call itself raises is an oracle
`fail : ACall → Bool` threaded where the claims need it.
-/

/-- One call issued to the external Actuator Service (the NAOqi proxies). -/
inductive ACall where
  | setAnglesL (names : List String) (angles : List ℚ) (speed : ℚ)
  | setAngles1 (name : String) (angle : ℚ) (speed : ℚ)
  | moveToward (vx vy w : ℚ)
  | stopMove
  | setStiffnesses (group : String) (value : ℚ)
  | goToPosture (name : String) (speed : ℚ)
deriving DecidableEq

/-- One entry of the joint-limit table (`{"min": …, "max": …}` in the JSON). -/
structure LimitEntry where
  min : ℚ
  max : ℚ
deriving DecidableEq

/-- `JointLimits` (src/Python/utils/joint_limits.py): the loaded limit table,
a mapping from joint name to its limit entry. -/
structure JointLimits where
  limits : List (String × LimitEntry)

/-- `JointLimits.clamp` (joint_limits.py lines 35-49): unknown joints pass the
value through; known joints saturate it into `[min, max]` via
`max(limit_info['min'], min(limit_info['max'], value))`. -/
def JointLimits.clamp (self : JointLimits) (joint_name : String) (value : ℚ) : ℚ :=
  match self.limits.lookup joint_name with
  | none => value
  | some limit_info => max limit_info.min (min limit_info.max value)

/-- `BaseController` (base_controller.py): holds the configured maxima set in
`__init__`. -/
structure BaseController where
  max_linear : ℚ
  max_angular : ℚ

def BaseController.new : BaseController :=
  { max_linear := 0.55, max_angular := 1.5 }

/-- `BaseController.move` (base_controller.py lines 9-18): clamps vx, vy, theta
by direct saturation and issues one `moveToward`.  Indexing `linear[0]`,
`linear[1]` raises if the list is too short. -/
def BaseController.move (self : BaseController) (linear : List ℚ) (angular : ℚ) :
    Except String (List ACall) :=
  match linear with
  | x :: y :: _ =>
    let vx := max (-self.max_linear) (min self.max_linear x)
    let vy := max (-self.max_linear) (min self.max_linear y)
    let theta := max (-self.max_angular) (min self.max_angular angular)
    .ok [ACall.moveToward vx vy theta]
  | _ => .error "IndexError"

/-- `BaseController.stop` (base_controller.py lines 20-22). -/
def BaseController.stop : List ACall :=
  [ACall.stopMove]

/-- `HeadController.move` (head_controller.py): clamps yaw and pitch through
the limit table and issues one two-joint `setAngles`. -/
def HeadController.move (limits : JointLimits) (yaw pitch speed : ℚ) : List ACall :=
  [ACall.setAnglesL ["HeadYaw", "HeadPitch"]
    [limits.clamp "HeadYaw" yaw, limits.clamp "HeadPitch" pitch] speed]

/-- `HandController.move` (hand_controller.py): clamps the open fraction into
`[0, 1]` and issues one `setAngles` at fixed speed 0.3. -/
def HandController.move (side : String) (value : ℚ) : List ACall :=
  let hand_name := if side = "left" then "LHand" else "RHand"
  let clamped_value := max 0 (min 1 value)
  [ACall.setAngles1 hand_name clamped_value 0.3]

/-- The `joints` sub-record of an `arm_move` command; each key may be absent
(a Python dict access on a missing key raises `KeyError`). -/
structure JointsDict where
  shoulderPitch : Option ℚ
  shoulderRoll : Option ℚ
  elbowYaw : Option ℚ
  elbowRoll : Option ℚ
  wristYaw : Option ℚ
deriving DecidableEq

/-- `ArmController.move` (arm_controller.py lines 11-29): builds the five
side-qualified joint names, clamps each angle independently, then issues one
multi-joint `setAngles`.  A missing `joints[...]` key raises before any
Actuator Service call is made. -/
def ArmController.move (limits : JointLimits) (side : String) (joints : JointsDict)
    (speed : ℚ) : Except String (List ACall) :=
  let p := if side = "left" then "L" else "R"
  match joints.shoulderPitch, joints.shoulderRoll, joints.elbowYaw,
      joints.elbowRoll, joints.wristYaw with
  | some sp, some sr, some ey, some er, some wy =>
    .ok [ACall.setAnglesL
      [p ++ "ShoulderPitch", p ++ "ShoulderRoll", p ++ "ElbowYaw",
        p ++ "ElbowRoll", p ++ "WristYaw"]
      [limits.clamp (p ++ "ShoulderPitch") sp, limits.clamp (p ++ "ShoulderRoll") sr,
        limits.clamp (p ++ "ElbowYaw") ey, limits.clamp (p ++ "ElbowRoll") er,
        limits.clamp (p ++ "WristYaw") wy] speed]
  | _, _, _, _, _ => .error "KeyError"

/-! ## Motion Program Player (src/Python/pepper_control/pre_motions.py) -/

/-- Body of `PreMotionPlayer._wave_motion` (pre_motions.py lines 54-68):
the sequence of Actuator Service calls (fixed `time.sleep` pauses carry no
actuator effect and are not recorded). -/
def PreMotionPlayer.wave_motion : List ACall :=
  [ACall.setStiffnesses "RArm" 1.0,
   ACall.setAngles1 "RShoulderPitch" (-0.5) 0.2,
   ACall.setAngles1 "RShoulderRoll" (-1.2) 0.2,
   ACall.setAngles1 "RElbowRoll" 1.5 0.2] ++
  (List.replicate 3
    [ACall.setAngles1 "RWristYaw" (-1.0) 0.4,
     ACall.setAngles1 "RWristYaw" 1.0 0.4]).flatten

/-- Body of `PreMotionPlayer._special_dance_motion` (pre_motions.py
lines 70-112). -/
def PreMotionPlayer.special_dance_motion : List ACall :=
  [ACall.setStiffnesses "Body" 1.0,
   ACall.setAngles1 "KneePitch" 0.5 0.3] ++
  (List.replicate 6
    [ACall.setAnglesL ["HipPitch", "HeadPitch"] [0.15, -0.2] 0.8,
     ACall.setAnglesL ["HipPitch", "HeadPitch"] [-0.15, 0.2] 0.8]).flatten ++
  (List.replicate 4
    [ACall.setAnglesL ["LShoulderPitch", "RShoulderPitch"] [-1.0, -1.0] 0.6,
     ACall.setAnglesL ["HipPitch"] [0.15] 0.8,
     ACall.setAnglesL ["LShoulderPitch", "RShoulderPitch"] [0.5, 0.5] 0.6,
     ACall.setAnglesL ["HipPitch"] [-0.15] 0.8]).flatten ++
  [ACall.setAnglesL ["LShoulderPitch", "RShoulderPitch"] [-1.5, -1.5] 0.4,
   ACall.setAngles1 "KneePitch" 0.8 0.3,
   ACall.setAngles1 "KneePitch" 0.0 0.5,
   ACall.setAnglesL ["LShoulderPitch", "RShoulderPitch", "LElbowRoll", "RElbowRoll"]
     [-0.5, -0.5, -1.5, 1.5] 0.3]

/-- The `if/elif/else` dispatch inside `PreMotionPlayer._run_motion`
(pre_motions.py lines 40-45): unknown names only print a warning, so their
body issues no actuator call. -/
def PreMotionPlayer.motion_body (motion_name : String) : List ACall :=
  if motion_name = "wave" then PreMotionPlayer.wave_motion
  else if motion_name = "dance" ∨ motion_name = "special_dance" then
    PreMotionPlayer.special_dance_motion
  else []

/-- Executes a call sequence against the Actuator Service failure oracle:
returns the calls attempted (in order) and whether an exception was raised,
truncating the sequence at the first raising call. -/
def runSeq (fail : ACall → Bool) : List ACall → List ACall × Bool
  | [] => ([], false)
  | c :: rest =>
    if fail c then ([c], true)
    else
      let r := runSeq fail rest
      (c :: r.1, r.2)

/-- Outcome of one `PreMotionPlayer._run_motion` execution: the trace of
attempted Actuator Service calls, whether an exception escaped the thread
body, and the final value of the `_is_playing` flag. -/
structure RunResult where
  trace : List ACall
  raised : Bool
  playing : Bool
deriving DecidableEq

/-- `PreMotionPlayer._run_motion` (pre_motions.py lines 32-52): sets
`_is_playing`, runs the body inside `try`, and in the `finally` block issues
`goToPosture("Stand", 0.5)` and then resets `_is_playing` to `False`.  If the
`goToPosture` call itself raises, the reset below it never executes and the
flag stays `True`. -/
def PreMotionPlayer.run_motion (fail : ACall → Bool) (motion_name : String) :
    RunResult :=
  let body := runSeq fail (PreMotionPlayer.motion_body motion_name)
  let posture := ACall.goToPosture "Stand" 0.5
  if fail posture then
    { trace := body.1 ++ [posture], raised := true, playing := true }
  else
    { trace := body.1 ++ [posture], raised := body.2, playing := false }

/-- Outcome of one `PreMotionPlayer.play` request: whether a new program
thread was started, the calls it issued, and the resulting playing flag. -/
structure PlayOutcome where
  started : Bool
  trace : List ACall
  final_playing : Bool
deriving DecidableEq

/-- `PreMotionPlayer.play` (pre_motions.py lines 21-30): if `is_playing()` the
request is ignored (no thread started, no call issued, flag untouched);
otherwise the motion thread runs `_run_motion` (modelled to completion). -/
def PreMotionPlayer.play (fail : ACall → Bool) (playing : Bool)
    (motion_name : String) : PlayOutcome :=
  if playing then { started := false, trace := [], final_playing := playing }
  else
    let r := PreMotionPlayer.run_motion fail motion_name
    { started := true, trace := r.trace, final_playing := r.playing }

/-! ## Command Router (src/Python/pepper_control/pepper_controller.py) -/

/-- The command dict as received by `process_command`: each field of the
schema may be absent (`command.get`/`command[...]` semantics). -/
structure CmdDict where
  type : Option String
  linear : Option (List ℚ)
  angular : Option ℚ
  yaw : Option ℚ
  pitch : Option ℚ
  speed : Option ℚ
  side : Option String
  value : Option ℚ
  joints : Option JointsDict
  motion_name : Option String
deriving DecidableEq

/-- A command dict with every field absent, for building concrete commands. -/
def CmdDict.empty : CmdDict :=
  { type := none, linear := none, angular := none, yaw := none, pitch := none,
    speed := none, side := none, value := none, joints := none, motion_name := none }

/-- An externally supplied command: either not a dict at all, or a dict. -/
inductive Command where
  | notDict
  | dict (c : CmdDict)
deriving DecidableEq

/-- The `type` field of a command, when it is a dict that carries one. -/
def Command.cmdType : Command → Option String
  | .notDict => none
  | .dict c => c.type

/-- `PepperController._validate_base_command` (pepper_controller.py
lines 141-146). -/
def PepperController.validate_base (c : CmdDict) : Except String Unit :=
  match c.linear, c.angular with
  | some lin, some _ => if lin.length < 2 then .error "ValueError" else .ok ()
  | _, _ => .error "KeyError"

/-- `PepperController._validate_head_command` (lines 148-153). -/
def PepperController.validate_head (c : CmdDict) : Except String Unit :=
  match c.yaw, c.pitch, c.speed with
  | some _, some _, some _ => .ok ()
  | _, _, _ => .error "KeyError"

/-- `PepperController._validate_hand_command` (lines 155-160). -/
def PepperController.validate_hand (c : CmdDict) : Except String Unit :=
  match c.side, c.value with
  | some side, some _ =>
    if side = "left" ∨ side = "right" then .ok () else .error "ValueError"
  | _, _ => .error "KeyError"

/-- `PepperController._validate_arm_command` (lines 162-167). -/
def PepperController.validate_arm (c : CmdDict) : Except String Unit :=
  match c.side, c.joints, c.speed with
  | some side, some _, some _ =>
    if side = "left" ∨ side = "right" then .ok () else .error "ValueError"
  | _, _, _ => .error "KeyError"

/-- The `try` block of `process_command` (lines 109-134): validate, then
dispatch to the specialist (or to the Player for `pre_motion`).  Returns the
Actuator Service calls issued, the motion names passed to
`PreMotionPlayer.play`, and the resulting playing flag; `.error` is an
exception reaching the surrounding `except` clauses.  Command types with no
branch — including `"emergency_stop"` and `"pre_motion_stop"` — fall into the
final `else`, which only logs "Unknown command type". -/
def PepperController.dispatch (limits : JointLimits) (fail : ACall → Bool)
    (playing : Bool) (c : CmdDict) (cmd_type : String) :
    Except String (List ACall × List String × Bool) :=
  if cmd_type = "base_move" then
    match PepperController.validate_base c with
    | .error e => .error e
    | .ok _ =>
      match c.linear, c.angular with
      | some lin, some ang =>
        match BaseController.new.move lin ang with
        | .ok calls => .ok (calls, [], playing)
        | .error e => .error e
      | _, _ => .error "KeyError"
  else if cmd_type = "head_move" then
    match PepperController.validate_head c with
    | .error e => .error e
    | .ok _ =>
      match c.yaw, c.pitch, c.speed with
      | some yaw, some pitch, some speed =>
        .ok (HeadController.move limits yaw pitch speed, [], playing)
      | _, _, _ => .error "KeyError"
  else if cmd_type = "hand_move" then
    match PepperController.validate_hand c with
    | .error e => .error e
    | .ok _ =>
      match c.side, c.value with
      | some side, some value => .ok (HandController.move side value, [], playing)
      | _, _ => .error "KeyError"
  else if cmd_type = "arm_move" then
    match PepperController.validate_arm c with
    | .error e => .error e
    | .ok _ =>
      match c.side, c.joints, c.speed with
      | some side, some joints, some speed =>
        match ArmController.move limits side joints speed with
        | .ok calls => .ok (calls, [], playing)
        | .error e => .error e
      | _, _, _ => .error "KeyError"
  else if cmd_type = "pre_motion" then
    match c.motion_name with
    | some s =>
      if s = "" then .ok ([], [], playing)
      else
        let r := PreMotionPlayer.play fail playing s
        .ok (r.trace, [s], r.final_playing)
    | none => .ok ([], [], playing)
  else
    .ok ([], [], playing)

/-- Observable outcome of one `process_command` invocation. -/
structure ProcOutput where
  calls : List ACall
  played : List String
  playing : Bool
deriving DecidableEq

/-- `PepperController.process_command` (pepper_controller.py lines 92-139):
rejects non-dicts and missing/falsy `type`; applies the priority gate
(`is_playing()` and type not in `["pre_motion_stop", "emergency_stop"]` →
drop); otherwise runs the dispatch inside `try`, with every exception caught
by the `except KeyError` / `except Exception` clauses (so the function is
total and an exception discards the command). -/
def PepperController.process_command (limits : JointLimits) (fail : ACall → Bool)
    (playing : Bool) (command : Command) : ProcOutput :=
  match command with
  | .notDict => { calls := [], played := [], playing := playing }
  | .dict c =>
    match c.type with
    | none => { calls := [], played := [], playing := playing }
    | some cmd_type =>
      if cmd_type = "" then { calls := [], played := [], playing := playing }
      else if playing ∧ ¬(cmd_type = "pre_motion_stop" ∨ cmd_type = "emergency_stop") then
        { calls := [], played := [], playing := playing }
      else
        match PepperController.dispatch limits fail playing c cmd_type with
        | .ok (calls, played, playing2) =>
          { calls := calls, played := played, playing := playing2 }
        | .error _ => { calls := [], played := [], playing := playing }

/-- `PepperController.emergency_stop` (lines 169-177): the method invoked by
the disconnect/shutdown paths — `base.stop()` then
`setStiffnesses("Body", 0.0)`. -/
def PepperController.emergency_stop : List ACall :=
  BaseController.stop ++ [ACall.setStiffnesses "Body" 0.0]

/-! ## Spec-side predicates and concrete example commands -/

/-- Formalises the spec's notion of a malformed command for its `type`:
"missing required sub-fields for the given type" (including the schema's
`linear` length and `joints` sub-field constraints). -/
def missing_required (c : CmdDict) (t : String) : Bool :=
  (t == "base_move" && (c.linear.isNone || c.angular.isNone ||
    (match c.linear with | some l => decide (l.length < 2) | none => false))) ||
  (t == "head_move" && (c.yaw.isNone || c.pitch.isNone || c.speed.isNone)) ||
  (t == "hand_move" && (c.side.isNone || c.value.isNone)) ||
  (t == "arm_move" && (c.side.isNone || c.joints.isNone || c.speed.isNone ||
    (match c.joints with
     | some j => j.shoulderPitch.isNone || j.shoulderRoll.isNone ||
         j.elbowYaw.isNone || j.elbowRoll.isNone || j.wristYaw.isNone
     | none => false))) ||
  (t == "pre_motion" && c.motion_name.isNone)

/-- Formalises the spec's "`side` not in {"left","right"}" rejection for the
command types that require a side. -/
def bad_side (c : CmdDict) (t : String) : Bool :=
  (t == "hand_move" || t == "arm_move") &&
    (match c.side with
     | some s => !(s == "left" || s == "right")
     | none => false)

/-- Formalises the spec's malformed-command enumeration: not a record, missing
`type`, missing a required sub-field for the given type, or invalid `side`. -/
def malformed_command : Command → Bool
  | .notDict => true
  | .dict c =>
    match c.type with
    | none => true
    | some t => missing_required c t || bad_side c t

/-- An Actuator Service oracle on which no call raises. -/
def no_fail : ACall → Bool := fun _ => false

/-- An Actuator Service oracle on which every call raises. -/
def all_fail : ACall → Bool := fun _ => true

/-- A well-formed `base_move` command. -/
def base_move_example : CmdDict :=
  { CmdDict.empty with
      type := some "base_move",
      linear := some [0.1, 0.0],
      angular := some 0.0 }

/-- A command whose `type` is `"emergency_stop"`. -/
def emergency_stop_cmd : CmdDict :=
  { CmdDict.empty with type := some "emergency_stop" }

/-- The spec's malformed-rejection example
`{"type":"hand_move","side":"up","value":0.5}`. -/
def hand_move_up_example : CmdDict :=
  { CmdDict.empty with
      type := some "hand_move",
      side := some "up",
      value := some 0.5 }

/-- The spec's arm round-trip example command
`{"type":"arm_move","side":"left","joints":{...},"speed":0.3}`. -/
def arm_move_example : CmdDict :=
  { CmdDict.empty with
      type := some "arm_move",
      side := some "left",
      joints := some ⟨some 3.0, some 0.0, some 0.0, some 0.0, some 0.0⟩,
      speed := some 0.3 }

/-- A one-entry limit table carrying the spec's `LShoulderPitch` range. -/
def limits_example : JointLimits :=
  ⟨[("LShoulderPitch", { min := -2.0857, max := 2.0857 })]⟩

/-! ## Theorems -/

/-- Computation rule of `clamp` for a joint present in the table. -/
theorem clamp_of_lookup (L : JointLimits) (j : String) (e : LimitEntry)
    (h : L.limits.lookup j = some e) (v : ℚ) :
    L.clamp j v = max e.min (min e.max v) := by
  unfold JointLimits.clamp
  rw [h]

/-- C4: for every joint present in the limit table (with a well-formed
inclusive range) and every input value, `clamp` lands in `[min, max]` and is
idempotent. -/
theorem clamp_bounded_and_idempotent (L : JointLimits) (joint : String)
    (e : LimitEntry) (v : ℚ) (hlook : L.limits.lookup joint = some e)
    (hwf : e.min ≤ e.max) :
    e.min ≤ L.clamp joint v ∧ L.clamp joint v ≤ e.max ∧
      L.clamp joint (L.clamp joint v) = L.clamp joint v := by
  simp only [clamp_of_lookup L joint e hlook]
  have h1 : e.min ≤ max e.min (min e.max v) := le_max_left _ _
  have h2 : max e.min (min e.max v) ≤ e.max := max_le hwf (min_le_left _ _)
  refine ⟨h1, h2, ?_⟩
  rw [min_eq_right h2, max_eq_right h1]

/-- Witness for C4 at the spec's `LShoulderPitch` entry and input 3. -/
theorem clamp_bounded_and_idempotent_witness :
    (-2.0857 : ℚ) ≤ limits_example.clamp "LShoulderPitch" 3 ∧
      limits_example.clamp "LShoulderPitch" 3 ≤ 2.0857 ∧
      limits_example.clamp "LShoulderPitch" (limits_example.clamp "LShoulderPitch" 3) =
        limits_example.clamp "LShoulderPitch" 3 :=
  clamp_bounded_and_idempotent limits_example "LShoulderPitch"
    { min := -2.0857, max := 2.0857 } 3 rfl (by norm_num)

/-- C8: for any joint name absent from the limit table, `clamp` returns the
value unchanged. -/
theorem clamp_unknown_joint_passthrough (L : JointLimits) (joint : String)
    (v : ℚ) (h : L.limits.lookup joint = none) : L.clamp joint v = v := by
  unfold JointLimits.clamp
  rw [h]

/-- Witness for C8 on the empty limit table. -/
theorem clamp_unknown_joint_passthrough_witness :
    JointLimits.clamp ⟨[]⟩ "KneePitch" 42 = 42 :=
  clamp_unknown_joint_passthrough ⟨[]⟩ "KneePitch" 42 rfl

/-- Saturation into `[-m, m]` bounds the magnitude by `m`. -/
theorem sat_abs_le (m x : ℚ) (hm : 0 ≤ m) : |max (-m) (min m x)| ≤ m := by
  rw [abs_le]
  exact ⟨le_max_left _ _, max_le (by linarith) (min_le_left _ _)⟩

/-- C6: `BaseController.move([10.0, -10.0], 100.0)` issues
`moveToward(0.55, -0.55, 1.5)`, and in general every issued component is
bounded in magnitude by the configured maxima 0.55 / 1.5. -/
theorem base_move_saturation :
    BaseController.new.move [10, -10] 100 =
      .ok [ACall.moveToward 0.55 (-0.55) 1.5] ∧
    ∀ x y rest w, ∃ vx vy th,
      BaseController.new.move (x :: y :: rest) w = .ok [ACall.moveToward vx vy th] ∧
      |vx| ≤ 0.55 ∧ |vy| ≤ 0.55 ∧ |th| ≤ 1.5 := by
  constructor
  · have h1 : max (-(0.55 : ℚ)) (min 0.55 10) = 0.55 := by
      rw [min_eq_left (by norm_num), max_eq_right (by norm_num)]
    have h2 : max (-(0.55 : ℚ)) (min 0.55 (-10)) = -0.55 := by
      rw [min_eq_right (by norm_num), max_eq_left (by norm_num)]
    have h3 : max (-(1.5 : ℚ)) (min 1.5 100) = 1.5 := by
      rw [min_eq_left (by norm_num), max_eq_right (by norm_num)]
    simp [BaseController.move, BaseController.new, h1, h2, h3]
  · intro x y rest w
    refine ⟨_, _, _, rfl, ?_, ?_, ?_⟩
    · exact sat_abs_le _ x (by norm_num [BaseController.new])
    · exact sat_abs_le _ y (by norm_num [BaseController.new])
    · exact sat_abs_le _ w (by norm_num [BaseController.new])

/-- C5: once the Player's flag is set, a second `play` request with any name
is a no-op: no thread is started, no actuator step is executed, and the flag
remains true. -/
theorem play_while_playing_is_noop (fail : ACall → Bool) (name : String) :
    PreMotionPlayer.play fail true name =
      { started := false, trace := [], final_playing := true } := rfl

/-- C1: with the Player playing, a `base_move` command through
`process_command` produces zero Actuator Service calls (first conjunct — the
claim's first half holds).  A command with type `"emergency_stop"` in the same
state, however, also produces zero calls: it passes the priority gate's
whitelist but no dispatch branch handles it, so it falls into the
unknown-command branch and never invokes `stop()` or `setStiffnesses` (second
conjunct — refuting the claim's second half on the code).  The
`emergency_stop()` method itself, reachable only from the disconnect and
shutdown paths, does issue `stopMove` then `setStiffnesses("Body", 0.0)`
(third conjunct). -/
theorem priority_gate_and_emergency_stop_command :
    PepperController.process_command ⟨[]⟩ no_fail true (.dict base_move_example) =
      { calls := [], played := [], playing := true } ∧
    PepperController.process_command ⟨[]⟩ no_fail true (.dict emergency_stop_cmd) =
      { calls := [], played := [], playing := true } ∧
    PepperController.emergency_stop =
      [ACall.stopMove, ACall.setStiffnesses "Body" 0.0] :=
  ⟨rfl, rfl, rfl⟩

/-- Recognises a standing-posture call (`goToPosture("Stand", ...)`). -/
def is_stand_posture : ACall → Bool
  | .goToPosture n _ => n == "Stand"
  | _ => false

/-- The trace of an executed sequence counts no more matches than the
sequence itself (it is the sequence truncated at the first failing call). -/
theorem runSeq_countP_le (fail p : ACall → Bool) (l : List ACall) :
    ((runSeq fail l).1.countP p) ≤ l.countP p := by
  induction l with
  | nil => simp [runSeq]
  | cons c rest ih =>
    cases h : fail c with
    | true =>
      simp only [runSeq, h, if_true, List.countP_cons, List.countP_nil]
      cases hp : p c <;> simp [hp]
    | false =>
      simp only [runSeq, h, Bool.false_eq_true, if_false, List.countP_cons]
      cases hp : p c <;> simp [hp] <;> omega

/-- No motion program body issues a standing-posture call. -/
theorem motion_body_no_posture (name : String) :
    (PreMotionPlayer.motion_body name).countP is_stand_posture = 0 := by
  unfold PreMotionPlayer.motion_body
  split
  · rfl
  · split
    · rfl
    · rfl

/-- C2: for every program name — unknown names and bodies that raise
mid-sequence included — provided the cleanup `goToPosture` call itself does
not raise, `_run_motion` ends with the playing flag false (Idle) and has
issued the standing-posture call exactly once. -/
theorem run_motion_ends_idle_with_one_posture (fail : ACall → Bool) (name : String)
    (h : fail (ACall.goToPosture "Stand" 0.5) = false) :
    (PreMotionPlayer.run_motion fail name).playing = false ∧
      (PreMotionPlayer.run_motion fail name).trace.countP is_stand_posture = 1 := by
  have hb := runSeq_countP_le fail is_stand_posture (PreMotionPlayer.motion_body name)
  rw [motion_body_no_posture name] at hb
  have hb0 : ((runSeq fail (PreMotionPlayer.motion_body name)).1.countP is_stand_posture) = 0 :=
    Nat.le_zero.mp hb
  unfold PreMotionPlayer.run_motion
  simp [h, List.countP_append, hb0, is_stand_posture, List.countP_cons]

/-- Witness for C2: the "wave" program under a never-failing Actuator
Service. -/
theorem run_motion_ends_idle_with_one_posture_witness :
    no_fail (ACall.goToPosture "Stand" 0.5) = false ∧
      ((PreMotionPlayer.run_motion no_fail "wave").playing = false ∧
        (PreMotionPlayer.run_motion no_fail "wave").trace.countP is_stand_posture = 1) :=
  ⟨rfl, run_motion_ends_idle_with_one_posture no_fail "wave" rfl⟩

/-- C10: if the cleanup `goToPosture` call in the `finally` block itself
raises, the statements below it never run, so the playing flag is never reset
— and from then on every command whose type is not `"pre_motion_stop"` or
`"emergency_stop"` is dropped by the router's priority gate. -/
theorem posture_failure_wedges_player (fail : ACall → Bool) (name : String)
    (h : fail (ACall.goToPosture "Stand" 0.5) = true) :
    (PreMotionPlayer.run_motion fail name).playing = true ∧
      ∀ (limits : JointLimits) (cmd : Command),
        (∀ t, cmd.cmdType = some t → ¬(t = "pre_motion_stop" ∨ t = "emergency_stop")) →
        PepperController.process_command limits fail true cmd =
          { calls := [], played := [], playing := true } := by
  constructor
  · simp [PreMotionPlayer.run_motion, h]
  · intro limits cmd hex
    match cmd with
    | .notDict => rfl
    | .dict c =>
      match hc : c.type with
      | none => simp [PepperController.process_command, hc]
      | some t =>
        have ht := hex t (by simpa [Command.cmdType] using hc)
        by_cases h0 : t = ""
        · simp [PepperController.process_command, hc, h0]
        · simp [PepperController.process_command, hc, h0, ht]

/-- Witness for C10: every call raising, the "wave" program, then a
`base_move` command dropped by the gate. -/
theorem posture_failure_wedges_player_witness :
    (PreMotionPlayer.run_motion all_fail "wave").playing = true ∧
      PepperController.process_command ⟨[]⟩ all_fail true (.dict base_move_example) =
        { calls := [], played := [], playing := true } := by
  have h := posture_failure_wedges_player all_fail "wave" rfl
  refine ⟨h.1, h.2 ⟨[]⟩ (.dict base_move_example) ?_⟩
  intro t ht
  injection ht with h2
  subst h2
  decide

/-- C9: a `pre_motion` command plays nothing when `motion_name` is missing or
empty (Python falsiness), and invokes `play(motion_name)` exactly when the
name is a non-empty string. -/
theorem pre_motion_requires_nonempty_name (limits : JointLimits)
    (fail : ACall → Bool) (c : CmdDict) (htype : c.type = some "pre_motion") :
    ((c.motion_name = none ∨ c.motion_name = some "") →
      PepperController.process_command limits fail false (.dict c) =
        { calls := [], played := [], playing := false }) ∧
    (∀ s, c.motion_name = some s → ¬ s = "" →
      (PepperController.process_command limits fail false (.dict c)).played = [s]) := by
  constructor
  · rintro (hm | hm) <;>
      simp [PepperController.process_command, PepperController.dispatch, htype, hm]
  · intro s hm hs
    simp [PepperController.process_command, PepperController.dispatch, htype, hm, hs]

/-- Witness for C9: a `pre_motion` command naming "wave" reaches
`play("wave")`. -/
theorem pre_motion_requires_nonempty_name_witness :
    (PepperController.process_command ⟨[]⟩ no_fail false
      (.dict { CmdDict.empty with
                 type := some "pre_motion",
                 motion_name := some "wave" })).played = ["wave"] :=
  (pre_motion_requires_nonempty_name ⟨[]⟩ no_fail
    { CmdDict.empty with
        type := some "pre_motion",
        motion_name := some "wave" } rfl).2 "wave" rfl (by decide)

/-- C7: the spec's arm round-trip example: with `LShoulderPitch` limited to
`[-2.0857, 2.0857]`, processing the `arm_move` example command issues exactly
one `setAngles` whose shoulder-pitch angle is 2.0857 (not 3.0), the remaining
four sub-joints clamped independently via their side-qualified names. -/
theorem arm_move_clamps_shoulder_pitch (L : JointLimits) (fail : ACall → Bool)
    (hlook : L.limits.lookup "LShoulderPitch" = some ⟨-2.0857, 2.0857⟩) :
    ∃ a2 a3 a4 a5,
      PepperController.process_command L fail false (.dict arm_move_example) =
        { calls := [ACall.setAnglesL
            ["LShoulderPitch", "LShoulderRoll", "LElbowYaw", "LElbowRoll", "LWristYaw"]
            [2.0857, a2, a3, a4, a5] 0.3],
          played := [], playing := false } := by
  refine ⟨L.clamp "LShoulderRoll" 0.0, L.clamp "LElbowYaw" 0.0, L.clamp "LElbowRoll" 0.0,
    L.clamp "LWristYaw" 0.0, ?_⟩
  have hsp : L.clamp "LShoulderPitch" 3.0 = 2.0857 := by
    rw [clamp_of_lookup L _ _ hlook]
    show max (-2.0857 : ℚ) (min 2.0857 3.0) = 2.0857
    rw [min_eq_left (by norm_num), max_eq_right (by norm_num)]
  have e1 : ("L" ++ "ShoulderPitch" : String) = "LShoulderPitch" := rfl
  have e2 : ("L" ++ "ShoulderRoll" : String) = "LShoulderRoll" := rfl
  have e3 : ("L" ++ "ElbowYaw" : String) = "LElbowYaw" := rfl
  have e4 : ("L" ++ "ElbowRoll" : String) = "LElbowRoll" := rfl
  have e5 : ("L" ++ "WristYaw" : String) = "LWristYaw" := rfl
  simp [PepperController.process_command, PepperController.dispatch,
    PepperController.validate_arm, ArmController.move, arm_move_example,
    CmdDict.empty, e1, e2, e3, e4, e5, hsp]

/-- Witness for C7: the one-entry table containing exactly the spec's
`LShoulderPitch` limit. -/
theorem arm_move_clamps_shoulder_pitch_witness :
    ∃ a2 a3 a4 a5,
      PepperController.process_command limits_example no_fail false (.dict arm_move_example) =
        { calls := [ACall.setAnglesL
            ["LShoulderPitch", "LShoulderRoll", "LElbowYaw", "LElbowRoll", "LWristYaw"]
            [2.0857, a2, a3, a4, a5] 0.3],
          played := [], playing := false } :=
  arm_move_clamps_shoulder_pitch limits_example no_fail rfl

/-- C3: every malformed command — not a dict, missing `type`, missing a
required sub-field for its type, or an invalid `side` — is dropped whole: no
Actuator Service call, no `play` invocation, the playing flag untouched (and
`process_command`, being a total function here, models that the caught
exceptions never escape). -/
theorem malformed_commands_dropped (limits : JointLimits) (fail : ACall → Bool)
    (playing : Bool) (cmd : Command) (h : malformed_command cmd = true) :
    PepperController.process_command limits fail playing cmd =
      { calls := [], played := [], playing := playing } := by
  cases cmd with
  | notDict => rfl
  | dict c =>
    obtain ⟨ty, lin, ang, yaw, pitch, speed, side, value, joints, mn⟩ := c
    cases ty with
    | none => simp [PepperController.process_command]
    | some t =>
      simp only [malformed_command, missing_required, bad_side, Bool.or_eq_true,
        Bool.and_eq_true, beq_iff_eq, Option.isNone_iff_eq_none] at h
      rcases h with ((((⟨ht, h⟩ | ⟨ht, h⟩) | ⟨ht, h⟩) | ⟨ht, h⟩) | ⟨ht, h⟩) | ⟨hts, h⟩
      · -- base_move with a missing/short field
        subst ht
        cases lin <;> cases ang <;> cases playing <;>
          simp_all [PepperController.process_command, PepperController.dispatch,
            PepperController.validate_base]
      · -- head_move with a missing field
        subst ht
        cases yaw <;> cases pitch <;> cases speed <;> cases playing <;>
          simp_all [PepperController.process_command, PepperController.dispatch,
            PepperController.validate_head]
      · -- hand_move with a missing field
        subst ht
        cases side <;> cases value <;> cases playing <;>
          simp_all [PepperController.process_command, PepperController.dispatch,
            PepperController.validate_hand]
      · -- arm_move with a missing field (top-level or joints sub-field)
        subst ht
        rcases h with ((h | h) | h) | h
        · subst h
          cases playing <;>
            simp [PepperController.process_command, PepperController.dispatch,
              PepperController.validate_arm]
        · subst h
          cases side <;> cases playing <;>
            simp_all [PepperController.process_command, PepperController.dispatch,
              PepperController.validate_arm]
        · subst h
          cases side <;> cases joints <;> cases playing <;>
            simp_all [PepperController.process_command, PepperController.dispatch,
              PepperController.validate_arm]
        · cases joints with
          | none =>
            cases side <;> cases playing <;>
              simp_all [PepperController.process_command, PepperController.dispatch,
                PepperController.validate_arm]
          | some j =>
            obtain ⟨j1, j2, j3, j4, j5⟩ := j
            cases side <;> cases speed <;> cases playing <;>
              cases j1 <;> cases j2 <;> cases j3 <;> cases j4 <;> cases j5 <;>
              simp_all [PepperController.process_command, PepperController.dispatch,
                PepperController.validate_arm, ArmController.move] <;>
              (try (split_ifs <;> simp))
      · -- pre_motion with missing motion_name
        subst ht
        subst h
        cases playing <;>
          simp [PepperController.process_command, PepperController.dispatch]
      · -- hand_move / arm_move with an invalid side
        rcases hts with ht | ht <;> subst ht
        · cases side <;> cases value <;> cases playing <;>
            simp_all [PepperController.process_command, PepperController.dispatch,
              PepperController.validate_hand]
        · cases side <;> cases joints <;> cases speed <;> cases playing <;>
            simp_all [PepperController.process_command, PepperController.dispatch,
              PepperController.validate_arm]

/-- Witness for C3 at the spec's rejection example
`{"type":"hand_move","side":"up","value":0.5}`. -/
theorem malformed_commands_dropped_witness :
    malformed_command (.dict hand_move_up_example) = true ∧
      PepperController.process_command ⟨[]⟩ no_fail false (.dict hand_move_up_example) =
        { calls := [], played := [], playing := false } :=
  ⟨rfl, malformed_commands_dropped ⟨[]⟩ no_fail false (.dict hand_move_up_example) rfl⟩
